import Mathlib

/-!
Verification of the order-acceptance core: the countdown timer, the swipe
gesture tracker, and the order status lifecycle, as implemented in
src/components/NewOrderModal.tsx (both the NewOrderModal and the
OrderDetailsModal component) and src/screens/OrdersScreen.tsx.

Pixel coordinates and widths are embedded as rationals (JS numbers,
idealized); tick counts and durations as naturals.
-/

namespace Dukaan

/-! ## Order lifecycle -/

/-- The closed set of order statuses (src/types, used throughout
src/screens/OrdersScreen.tsx and src/components/NewOrderModal.tsx). -/
inductive OrderStatus where
  | NEW
  | PREPARING
  | READY_FOR_PICKUP
  | COMPLETED
  | REJECTED
deriving DecidableEq, Repr

/-- The legal-edge table of the order lifecycle:
NEW → PREPARING, NEW → REJECTED, PREPARING → READY_FOR_PICKUP,
READY_FOR_PICKUP → COMPLETED; REJECTED and COMPLETED are terminal. -/
def legalEdge : OrderStatus → OrderStatus → Bool
  | .NEW, .PREPARING => true
  | .NEW, .REJECTED => true
  | .PREPARING, .READY_FOR_PICKUP => true
  | .READY_FOR_PICKUP, .COMPLETED => true
  | _, _ => false

/-- Modelled from the spec: the external order store's
requestStatusTransition (the App-level updateStatus handler is not under
src/; src/screens/OrdersScreen.tsx only forwards to it via the
onUpdateStatus prop). Per the spec, a request whose (current, target)
pair is a legal edge returns the target; any other request is rejected
as an invalid transition and must not mutate status. -/
def transition (current target : OrderStatus) : Except String OrderStatus :=
  match current, target with
  | .NEW, .PREPARING => .ok .PREPARING
  | .NEW, .REJECTED => .ok .REJECTED
  | .PREPARING, .READY_FOR_PICKUP => .ok .READY_FOR_PICKUP
  | .READY_FOR_PICKUP, .COMPLETED => .ok .COMPLETED
  | _, _ => .error "invalid transition"

/-- The status the store holds after a transition request: the target on
a legal edge, the unchanged current status on a rejected request. -/
def applyRequest (current target : OrderStatus) : OrderStatus :=
  match transition current target with
  | .ok next => next
  | .error _ => current

/-! ## Countdown timer

The countdown of both modal components
(src/components/NewOrderModal.tsx lines 29-52 for NewOrderModal with
duration 600, lines 228-252 for OrderDetailsModal with duration 150):
a timeLeft counter decremented by a window.setInterval callback, with
the interval id kept in timerIntervalRef. The model tracks the number
of live (not-yet-cleared) interval schedules explicitly, and whether
timerIntervalRef.current points at a live schedule, so that the
clearInterval discipline of the source is visible: a stacked (never
cleared) interval would show up as live = 2. The tick interval length
(100 ms in the source) does not enter a tick-indexed model. -/

/-- Timer-side state of one modal component. -/
structure TimerM where
  /-- the timeLeft React state (ticks remaining) -/
  timeLeft : Nat
  /-- number of live interval schedules targeting this component -/
  live : Nat
  /-- whether timerIntervalRef.current holds the id of a live schedule -/
  refLive : Bool
deriving DecidableEq, Repr

/-- clearInterval(timerIntervalRef.current): kills the referenced
schedule if it is still live; clearing an already-cleared id is a
no-op (JS semantics). The ref itself is not nulled by the source. -/
def clearIntervalRef (s : TimerM) : TimerM :=
  if s.refLive then { s with live := s.live - 1, refLive := false } else s

/-- The timer effect body (NewOrderModal lines 31-44 and
OrderDetailsModal lines 230-243, parametric in the duration that the
source hardcodes as 600 resp. 150): setTimeLeft(duration), then
clearInterval of any previous schedule held by the ref, then
window.setInterval registering a fresh schedule whose id the ref takes. -/
def startTimerEffect (duration : Nat) (s : TimerM) : TimerM :=
  let s1 := clearIntervalRef s
  { s1 with timeLeft := duration, live := s1.live + 1, refLive := true }

/-- One firing of the interval callback (NewOrderModal lines 35-44,
OrderDetailsModal lines 234-243). The callback only runs while a live
schedule exists. Body: setTimeLeft(prev => if prev <= 1 then
(clearInterval(ref); fire the expiry, i.e. the NEW → REJECTED request;
return 0) else prev - 1). Returns the new state and whether the expiry
callback fired. -/
def intervalTick (s : TimerM) : TimerM × Bool :=
  if s.live = 0 then (s, false)
  else if s.timeLeft ≤ 1 then (clearIntervalRef { s with timeLeft := 0 }, true)
  else ({ s with timeLeft := s.timeLeft - 1 }, false)

/-- Run n interval ticks, counting expiry firings. -/
def runTicks (s : TimerM) : Nat → TimerM × Nat
  | 0 => (s, 0)
  | n + 1 =>
    let p := intervalTick s
    let q := runTicks p.1 n
    (q.1, (if p.2 then 1 else 0) + q.2)

/-- The timer state right after a fresh mount of the decision surface
runs the timer effect with the given duration. -/
def initTimer (duration : Nat) : TimerM :=
  startTimerEffect duration { timeLeft := 0, live := 0, refLive := false }

/-- A state with no live schedule never runs the callback again. -/
theorem runTicks_no_live (s : TimerM) (h : s.live = 0) :
    ∀ n, runTicks s n = (s, 0) := by
  intro n
  induction n with
  | zero => rfl
  | succ n ih =>
    simp only [runTicks, intervalTick, h, if_pos rfl]
    simpa using ih

theorem initTimer_eq (duration : Nat) :
    initTimer duration = { timeLeft := duration, live := 1, refLive := true } := rfl

/-- Full behaviour of a freshly started countdown of positive duration:
for the first D - 1 ticks it only decrements; the D-th tick fires the
expiry exactly once and kills the schedule; afterwards nothing changes. -/
theorem runTicks_init (duration : Nat) (hD : 1 ≤ duration) :
    ∀ n, runTicks (initTimer duration) n =
      if n < duration then ({ timeLeft := duration - n, live := 1, refLive := true }, 0)
      else ({ timeLeft := 0, live := 0, refLive := false }, 1) := by
  intro n
  induction n generalizing duration with
  | zero =>
    simp [runTicks, initTimer_eq, Nat.lt_of_lt_of_le Nat.zero_lt_one hD]
  | succ n ih =>
    by_cases h1 : duration = 1
    · subst h1
      have hdead : runTicks { timeLeft := 0, live := 0, refLive := false } n =
          ({ timeLeft := 0, live := 0, refLive := false }, 0) :=
        runTicks_no_live _ rfl n
      simp [runTicks, intervalTick, initTimer_eq, clearIntervalRef, hdead]
    · have h2 : 2 ≤ duration := by omega
      have hstep : intervalTick (initTimer duration) =
          (initTimer (duration - 1), false) := by
        simp [intervalTick, initTimer_eq]
        omega
      have ihp := ih (duration - 1) (by omega)
      simp only [runTicks, hstep]
      rcases Nat.lt_or_ge n (duration - 1) with hlt | hge
      · rw [ihp]
        have hn1 : n + 1 < duration := by omega
        simp [hlt, hn1]
        omega
      · rw [ihp]
        have hn1 : ¬ n < duration - 1 := by omega
        have hn2 : ¬ n + 1 < duration := by omega
        simp [hn1, hn2]

/-! ## Swipe gesture tracker

The swipe handlers, identical in both modal components
(src/components/NewOrderModal.tsx lines 58-100 and 258-299): startX
and the isSwiping flag are React state, the clamped displacement lives
in swipeDeltaRef. Widths are the rendered offsetWidth of the slider
track (sliderRef) and the handle (handleRef); the handlers are modelled
in the mounted case where both refs are set. Pointer coordinates
(clientX, already normalized over mouse and touch by getClientX) are
rationals. -/

/-- Gesture-side state of one modal component. -/
structure Swipe where
  /-- the isSwiping React state -/
  isSwiping : Bool
  /-- the swipeStartX React state -/
  swipeStartX : ℚ
  /-- swipeDeltaRef.current, the last clamped displacement -/
  swipeDelta : ℚ
deriving DecidableEq, Repr

/-- Gesture state at mount: isSwiping false, swipeStartX 0 (useState(0)),
swipeDeltaRef 0 (useRef(0)). -/
def initSwipe : Swipe := { isSwiping := false, swipeStartX := 0, swipeDelta := 0 }

/-- handleSwipeStart (lines 58-66 / 258-266, the guard passed): records
the pointer position and marks the gesture active. It does NOT touch
swipeDeltaRef. -/
def handleSwipeStart (x : ℚ) (g : Swipe) : Swipe :=
  { g with swipeStartX := x, isSwiping := true }

/-- handleSwipeMove (lines 86-100 / 285-299): no-op unless isSwiping;
otherwise delta = clientX - startX clamped by
Math.max(0, Math.min(delta, sliderWidth - handleWidth)), stored in
swipeDeltaRef (and shown as the handle transform). -/
def handleSwipeMove (sliderWidth handleWidth : ℚ) (x : ℚ) (g : Swipe) : Swipe :=
  if g.isSwiping then
    { g with swipeDelta := max 0 (min (x - g.swipeStartX) (sliderWidth - handleWidth)) }
  else g

/-- handleSwipeEnd (lines 68-84 / 268-283): no-op unless isSwiping;
otherwise deactivates and commits (issues the accept request) exactly
when swipeDeltaRef.current > sliderWidth * 0.7; on a non-commit the
handle animates back to translateX(0). Returns the new state and the
commit verdict. -/
def handleSwipeEnd (sliderWidth : ℚ) (g : Swipe) : Swipe × Bool :=
  if g.isSwiping then
    if g.swipeDelta > sliderWidth * (7 / 10) then
      ({ g with isSwiping := false }, true)
    else
      ({ g with isSwiping := false }, false)
  else (g, false)

/-- A sequence of pointer-move events folded over the gesture state. -/
def applyMoves (sliderWidth handleWidth : ℚ) : List ℚ → Swipe → Swipe
  | [], g => g
  | x :: xs, g => applyMoves sliderWidth handleWidth xs (handleSwipeMove sliderWidth handleWidth x g)

/-- One raw gesture event. -/
inductive SwipeEvent where
  | begin (x : ℚ)
  | move (x : ℚ)
  | release
deriving DecidableEq, Repr

/-- Run a list of gesture events, counting commit verdicts of releases. -/
def runSwipe (sliderWidth handleWidth : ℚ) : List SwipeEvent → Swipe → Swipe × Nat
  | [], g => (g, 0)
  | .begin x :: es, g => runSwipe sliderWidth handleWidth es (handleSwipeStart x g)
  | .move x :: es, g => runSwipe sliderWidth handleWidth es (handleSwipeMove sliderWidth handleWidth x g)
  | .release :: es, g =>
    let p := handleSwipeEnd sliderWidth g
    let q := runSwipe sliderWidth handleWidth es p.1
    (q.1, (if p.2 then 1 else 0) + q.2)

theorem applyMoves_active (W H : ℚ) (xs : List ℚ) (g : Swipe) (hg : g.isSwiping = true) :
    ∀ x, applyMoves W H (xs ++ [x]) g =
      { g with swipeDelta := max 0 (min (x - g.swipeStartX) (W - H)) } := by
  induction xs generalizing g with
  | nil =>
    intro x
    simp [applyMoves, handleSwipeMove, hg]
  | cons y ys ih =>
    intro x
    have hmv : (handleSwipeMove W H y g).isSwiping = true := by
      simp [handleSwipeMove, hg]
    have := ih (handleSwipeMove W H y g) hmv x
    simp only [List.cons_append, applyMoves, List.append_eq] at *
    rw [this]
    simp [handleSwipeMove, hg]

/-! ## Composed decision surface

The OrderDetailsModal component (src/components/NewOrderModal.tsx lines
214-451) as mounted by OrdersScreen (src/screens/OrdersScreen.tsx lines
156-163), together with the spec-modelled order store. Status updates
flow through OrdersScreen.handleUpdateStatus (lines 95-98), which
forwards to the store and then calls setSelectedOrder(null); the
resulting unmount runs the timer effect cleanup (lines 247-251),
clearing the interval. The store update, the setSelectedOrder(null) and
the unmount cleanup all run inside one event-loop task, before any
pending interval callback can fire (JS is single-threaded and React
flushes before yielding), so they are modelled as one atomic step. -/

/-- Joint state of the order store and the mounted OrderDetailsModal. -/
structure ModalSys where
  /-- the order's status in the store -/
  status : OrderStatus
  /-- whether the modal is mounted (OrdersScreen.selectedOrder is set) -/
  mounted : Bool
  /-- the modal's timer state -/
  timer : TimerM
  /-- the modal's gesture state -/
  gesture : Swipe
  /-- how many PREPARING (accept) requests were issued to the store -/
  acceptReqs : Nat
  /-- how many REJECTED requests were issued to the store -/
  rejectReqs : Nat
deriving DecidableEq, Repr

/-- Modelled from the spec: the store applies a transition request,
mutating status only on a legal edge; the request counters record that
a request was issued, whatever its outcome. -/
def storeUpdate (target : OrderStatus) (s : ModalSys) : ModalSys :=
  { s with
    status := applyRequest s.status target
    acceptReqs := s.acceptReqs + (if target = OrderStatus.PREPARING then 1 else 0)
    rejectReqs := s.rejectReqs + (if target = OrderStatus.REJECTED then 1 else 0) }

/-- The unmounting modal's timer effect cleanup (lines 247-251):
clearInterval on the ref-held schedule. -/
def unmountCleanup (s : ModalSys) : ModalSys :=
  { s with timer := clearIntervalRef s.timer }

/-- OrdersScreen.handleUpdateStatus (lines 95-98): forward the request
to the store, then setSelectedOrder(null); the unmount runs the timer
effect cleanup before any further timer callback. -/
def handleUpdateStatus (target : OrderStatus) (s : ModalSys) : ModalSys :=
  unmountCleanup { storeUpdate target s with mounted := false }

/-- One firing of the modal's interval callback (lines 234-243): only a
live schedule fires; at timeLeft <= 1 it clears the interval and issues
the NEW → REJECTED request through onUpdateStatus, else it decrements. -/
def tickEvent (s : ModalSys) : ModalSys :=
  if s.timer.live = 0 then s
  else if s.timer.timeLeft ≤ 1 then
    handleUpdateStatus OrderStatus.REJECTED
      { s with timer := clearIntervalRef { s.timer with timeLeft := 0 } }
  else { s with timer := { s.timer with timeLeft := s.timer.timeLeft - 1 } }

/-- Simulate n further interval ticks. -/
def iterTicks : Nat → ModalSys → ModalSys
  | 0, s => s
  | n + 1, s => iterTicks n (tickEvent s)

/-- handleSwipeEnd as wired in the mounted modal (lines 268-283): on a
commit verdict the accept request goes through onUpdateStatus, else only
the gesture deactivates (the handle settles back visually). -/
def swipeEndEvent (sliderWidth : ℚ) (s : ModalSys) : ModalSys :=
  if s.mounted then
    let p := handleSwipeEnd sliderWidth s.gesture
    let s1 := { s with gesture := p.1 }
    if p.2 then handleUpdateStatus OrderStatus.PREPARING s1 else s1
  else s

/-- onClose of the OrderDetailsModal (backdrop click, line 372, or the X
button, line 396): OrdersScreen calls setSelectedOrder(null) (line 159),
unmounting the modal, whose cleanup clears the interval. No status
request is issued. -/
def closeEvent (s : ModalSys) : ModalSys :=
  if s.mounted then unmountCleanup { s with mounted := false } else s

/-- NewOrderModal's handleCloseAndReject (lines 23-27), wired to its
backdrop onClick (line 126): dismissing that surface issues the
NEW → REJECTED request through onUpdateStatus. -/
def newOrderCloseAndReject (s : ModalSys) : ModalSys :=
  storeUpdate OrderStatus.REJECTED s

/-- A modal whose timer has no live schedule is inert under ticks. -/
theorem iterTicks_no_live (s : ModalSys) (h : s.timer.live = 0) :
    ∀ n, iterTicks n s = s := by
  intro n
  induction n with
  | zero => rfl
  | succ n ih =>
    simp only [iterTicks, tickEvent, h, if_pos rfl]
    exact ih

/-- Full behaviour of a mounted NEW-status modal with a freshly started
countdown of positive duration D: the first D - 1 ticks only decrement;
the D-th tick clears the interval and issues NEW → REJECTED exactly
once (the store moves the order to REJECTED, the modal unmounts);
afterwards nothing changes. -/
theorem iterTicks_new_modal (g : Swipe) (a r : Nat) (D : Nat) (hD : 1 ≤ D) :
    ∀ n, iterTicks n
      { status := OrderStatus.NEW, mounted := true,
        timer := { timeLeft := D, live := 1, refLive := true },
        gesture := g, acceptReqs := a, rejectReqs := r } =
      if n < D then
        { status := OrderStatus.NEW, mounted := true,
          timer := { timeLeft := D - n, live := 1, refLive := true },
          gesture := g, acceptReqs := a, rejectReqs := r }
      else
        { status := OrderStatus.REJECTED, mounted := false,
          timer := { timeLeft := 0, live := 0, refLive := false },
          gesture := g, acceptReqs := a, rejectReqs := r + 1 } := by
  intro n
  induction n generalizing D with
  | zero =>
    simp [iterTicks, Nat.lt_of_lt_of_le Nat.zero_lt_one hD]
  | succ n ih =>
    by_cases h1 : D = 1
    · subst h1
      have hstep : tickEvent
          { status := OrderStatus.NEW, mounted := true,
            timer := { timeLeft := 1, live := 1, refLive := true },
            gesture := g, acceptReqs := a, rejectReqs := r } =
          { status := OrderStatus.REJECTED, mounted := false,
            timer := { timeLeft := 0, live := 0, refLive := false },
            gesture := g, acceptReqs := a, rejectReqs := r + 1 } := by
        simp [tickEvent, handleUpdateStatus, storeUpdate, unmountCleanup,
          clearIntervalRef, applyRequest, transition]
      have hfrozen := iterTicks_no_live
        { status := OrderStatus.REJECTED, mounted := false,
          timer := { timeLeft := 0, live := 0, refLive := false },
          gesture := g, acceptReqs := a, rejectReqs := r + 1 } rfl n
      simp only [iterTicks, hstep, hfrozen]
      simp
    · have h2 : 2 ≤ D := by omega
      have hstep : tickEvent
          { status := OrderStatus.NEW, mounted := true,
            timer := { timeLeft := D, live := 1, refLive := true },
            gesture := g, acceptReqs := a, rejectReqs := r } =
          { status := OrderStatus.NEW, mounted := true,
            timer := { timeLeft := D - 1, live := 1, refLive := true },
            gesture := g, acceptReqs := a, rejectReqs := r } := by
        simp [tickEvent]
        omega
      have ihp := ih (D - 1) (by omega)
      simp only [iterTicks, hstep]
      rw [ihp]
      rcases Nat.lt_or_ge n (D - 1) with hlt | hge
      · have hn1 : n + 1 < D := by omega
        simp [hlt, hn1]
        omega
      · have hn1 : ¬ n < D - 1 := by omega
        have hn2 : ¬ n + 1 < D := by omega
        simp [hn1, hn2]

/-- If the track leaves the clamp bound at or below the 70% threshold,
the stored offset can never exceed the threshold, and no release ever
returns a commit verdict. -/
theorem runSwipe_no_commit_of_le (W H : ℚ) (hW : 0 ≤ W) (hH : (3 / 10) * W ≤ H) :
    ∀ (es : List SwipeEvent) (g : Swipe), g.swipeDelta ≤ W * (7 / 10) →
      (runSwipe W H es g).2 = 0 ∧ (runSwipe W H es g).1.swipeDelta ≤ W * (7 / 10) := by
  have hthr : (0:ℚ) ≤ W * (7 / 10) := by nlinarith
  have hclamp : W - H ≤ W * (7 / 10) := by nlinarith
  intro es
  induction es with
  | nil => intro g hg; exact ⟨rfl, hg⟩
  | cons e es ih =>
    intro g hg
    match e with
    | .begin x =>
      exact ih (handleSwipeStart x g) (by simpa [handleSwipeStart] using hg)
    | .move x =>
      refine ih (handleSwipeMove W H x g) ?_
      by_cases hs : g.isSwiping = true
      · simp only [handleSwipeMove, hs, if_pos rfl]
        exact max_le hthr (le_trans (min_le_right _ _) hclamp)
      · simp only [handleSwipeMove, hs]
        simpa [hs] using hg
    | .release =>
      have hv : handleSwipeEnd W g = (if g.isSwiping then { g with isSwiping := false } else g, false) := by
        by_cases hs : g.isSwiping = true
        · have : ¬ g.swipeDelta > W * (7 / 10) := not_lt.mpr hg
          simp [handleSwipeEnd, hs, this]
        · simp [handleSwipeEnd, hs]
      have hrec := ih (handleSwipeEnd W g).1 (by rw [hv]; by_cases hs : g.isSwiping = true <;> simpa [hs] using hg)
      simp only [runSwipe, hv]
      simpa [hv] using hrec

/-! ## Concrete states used by witnesses -/

/-- A timer mid-countdown (for the reset witness). -/
def tRunningA : TimerM := { timeLeft := 5, live := 1, refLive := true }

/-- A timer mid-countdown (for the cancel witness). -/
def tRunningB : TimerM := { timeLeft := 37, live := 1, refLive := true }

/-- An active gesture that has not moved yet. -/
def gActive : Swipe := { isSwiping := true, swipeStartX := 0, swipeDelta := 0 }

/-- A mounted NEW-status modal, timer running, gesture dragged past the
70% threshold of a 140px track (offset 99 > 98). -/
def mCommit : ModalSys :=
  { status := OrderStatus.NEW, mounted := true,
    timer := { timeLeft := 570, live := 1, refLive := true },
    gesture := { isSwiping := true, swipeStartX := 0, swipeDelta := 99 },
    acceptReqs := 0, rejectReqs := 0 }

/-- A mounted NEW-status modal with a running timer and idle gesture. -/
def mOpen : ModalSys :=
  { status := OrderStatus.NEW, mounted := true,
    timer := { timeLeft := 120, live := 1, refLive := true },
    gesture := initSwipe, acceptReqs := 0, rejectReqs := 0 }

/-! ## Claims -/

/-- Claim C1, counterexample: started with duration 0 the countdown has
fired no expiry after running 0 ticks (the claim, quantified over every
duration, demands exactly one firing at tick D = 0); the expiry instead
fires at tick 1, because the interval callback treats prev = 0 by the
same prev <= 1 branch as prev = 1. -/
theorem countdown_zero_duration_expires_late :
    (runTicks (initTimer 0) 0).2 = 0 ∧
    runTicks (initTimer 0) 1 = ({ timeLeft := 0, live := 0, refLive := false }, 1) :=
  ⟨rfl, rfl⟩

/-- Claim C1 (amended: for every duration D ≥ 1, which covers the 600
and 150 the source hardcodes): a freshly started countdown decrements
once per tick, fires the expiry callback exactly once, at tick D and
never before, and stops ticking afterwards; composed with the mounted
OrderDetailsModal, the expiry is the single NEW → REJECTED request. -/
theorem countdown_expires_exactly_at_duration (D n : Nat) (g : Swipe) (a r : Nat)
    (hD : 1 ≤ D) :
    (runTicks (initTimer D) n =
      if n < D then ({ timeLeft := D - n, live := 1, refLive := true }, 0)
      else ({ timeLeft := 0, live := 0, refLive := false }, 1)) ∧
    (iterTicks n
      { status := OrderStatus.NEW, mounted := true,
        timer := { timeLeft := D, live := 1, refLive := true },
        gesture := g, acceptReqs := a, rejectReqs := r } =
      if n < D then
        { status := OrderStatus.NEW, mounted := true,
          timer := { timeLeft := D - n, live := 1, refLive := true },
          gesture := g, acceptReqs := a, rejectReqs := r }
      else
        { status := OrderStatus.REJECTED, mounted := false,
          timer := { timeLeft := 0, live := 0, refLive := false },
          gesture := g, acceptReqs := a, rejectReqs := r + 1 }) :=
  ⟨runTicks_init D hD n, iterTicks_new_modal g a r D hD n⟩

/-- Claim C1 witness: duration 3, run for 5 ticks. -/
theorem countdown_expires_exactly_at_duration_witness :
    1 ≤ 3 ∧
    ((runTicks (initTimer 3) 5 =
      if 5 < 3 then ({ timeLeft := 3 - 5, live := 1, refLive := true }, 0)
      else ({ timeLeft := 0, live := 0, refLive := false }, 1)) ∧
    (iterTicks 5
      { status := OrderStatus.NEW, mounted := true,
        timer := { timeLeft := 3, live := 1, refLive := true },
        gesture := initSwipe, acceptReqs := 0, rejectReqs := 0 } =
      if 5 < 3 then
        { status := OrderStatus.NEW, mounted := true,
          timer := { timeLeft := 3 - 5, live := 1, refLive := true },
          gesture := initSwipe, acceptReqs := 0, rejectReqs := 0 }
      else
        { status := OrderStatus.REJECTED, mounted := false,
          timer := { timeLeft := 0, live := 0, refLive := false },
          gesture := initSwipe, acceptReqs := 0, rejectReqs := 0 + 1 })) :=
  ⟨by decide, countdown_expires_exactly_at_duration 3 5 initSwipe 0 0 (by decide)⟩

/-- Claim C2: releasing a gesture past the threshold on a mounted
NEW-status modal issues exactly one accept (NEW → PREPARING) request,
no reject request, kills the interval schedule, and any number of
further simulated ticks leaves the state unchanged — the timeout path
is disabled, so at most one terminal action is ever issued. -/
theorem gesture_commit_is_sole_terminal_action (W : ℚ) (s : ModalSys) (n : Nat)
    (hm : s.mounted = true) (hst : s.status = OrderStatus.NEW)
    (hsw : s.gesture.isSwiping = true)
    (hl : s.timer.live = 1) (hr : s.timer.refLive = true)
    (hd : s.gesture.swipeDelta > W * (7 / 10)) :
    (swipeEndEvent W s).status = OrderStatus.PREPARING ∧
    (swipeEndEvent W s).acceptReqs = s.acceptReqs + 1 ∧
    (swipeEndEvent W s).rejectReqs = s.rejectReqs ∧
    (swipeEndEvent W s).timer.live = 0 ∧
    iterTicks n (swipeEndEvent W s) = swipeEndEvent W s := by
  have hend : swipeEndEvent W s =
      { status := OrderStatus.PREPARING, mounted := false,
        timer := { timeLeft := s.timer.timeLeft, live := 0, refLive := false },
        gesture := { s.gesture with isSwiping := false },
        acceptReqs := s.acceptReqs + 1, rejectReqs := s.rejectReqs } := by
    simp [swipeEndEvent, handleSwipeEnd, handleUpdateStatus, storeUpdate,
      unmountCleanup, clearIntervalRef, applyRequest, transition,
      hm, hst, hsw, hd, hl, hr]
  refine ⟨by rw [hend], by rw [hend], by rw [hend], by rw [hend], ?_⟩
  rw [hend]
  exact iterTicks_no_live _ rfl n

/-- Claim C2 witness: a 140px track, offset 99 (threshold 98), 8 extra
ticks simulated after the commit. -/
theorem gesture_commit_is_sole_terminal_action_witness :
    (mCommit.mounted = true ∧ mCommit.status = OrderStatus.NEW ∧
      mCommit.gesture.isSwiping = true ∧ mCommit.timer.live = 1 ∧
      mCommit.timer.refLive = true ∧ mCommit.gesture.swipeDelta > 140 * (7 / 10)) ∧
    ((swipeEndEvent 140 mCommit).status = OrderStatus.PREPARING ∧
    (swipeEndEvent 140 mCommit).acceptReqs = mCommit.acceptReqs + 1 ∧
    (swipeEndEvent 140 mCommit).rejectReqs = mCommit.rejectReqs ∧
    (swipeEndEvent 140 mCommit).timer.live = 0 ∧
    iterTicks 8 (swipeEndEvent 140 mCommit) = swipeEndEvent 140 mCommit) :=
  ⟨⟨rfl, rfl, rfl, rfl, rfl, by norm_num [mCommit]⟩,
   gesture_commit_is_sole_terminal_action 140 mCommit 8 rfl rfl rfl rfl rfl
     (by norm_num [mCommit])⟩

/-- Claim C3: a transition request on a legal edge of the lifecycle
returns the target; any other request returns an invalid-transition
error and leaves the status unchanged. -/
theorem transition_respects_legal_edges (c t : OrderStatus) :
    (legalEdge c t = true → transition c t = Except.ok t) ∧
    (legalEdge c t = false → (transition c t).toOption = none ∧ applyRequest c t = c) := by
  cases c <;> cases t <;> simp [legalEdge, transition, applyRequest, Except.toOption]

/-- Claim C3 witness: NEW → PREPARING is a legal edge and succeeds;
COMPLETED → NEW is not, errors, and leaves the status at COMPLETED. -/
theorem transition_respects_legal_edges_witness :
    (legalEdge OrderStatus.NEW OrderStatus.PREPARING = true ∧
      transition OrderStatus.NEW OrderStatus.PREPARING = Except.ok OrderStatus.PREPARING) ∧
    (legalEdge OrderStatus.COMPLETED OrderStatus.NEW = false ∧
      (transition OrderStatus.COMPLETED OrderStatus.NEW).toOption = none ∧
      applyRequest OrderStatus.COMPLETED OrderStatus.NEW = OrderStatus.COMPLETED) :=
  ⟨⟨rfl, (transition_respects_legal_edges OrderStatus.NEW OrderStatus.PREPARING).1 rfl⟩,
   ⟨rfl, (transition_respects_legal_edges OrderStatus.COMPLETED OrderStatus.NEW).2 rfl⟩⟩

/-- Claim C4: releasing an active gesture after any sequence of moves
commits exactly when the final clamped offset — the clamp of the last
move's displacement, not any earlier or accumulated distance — is
strictly greater than 0.7 × trackWidth. -/
theorem swipeEnd_commits_iff_final_clamped_offset (W H : ℚ) (g : Swipe)
    (xs : List ℚ) (x : ℚ) (hg : g.isSwiping = true) :
    (handleSwipeEnd W (applyMoves W H (xs ++ [x]) g)).2 =
      decide (max 0 (min (x - g.swipeStartX) (W - H)) > W * (7 / 10)) := by
  rw [applyMoves_active W H xs g hg x]
  by_cases h : max 0 (min (x - g.swipeStartX) (W - H)) > W * (7 / 10) <;>
    simp [handleSwipeEnd, hg, h]

/-- Claim C4 witness: track 140, handle 56, one move to 155 (clamped to
84, below the 98 threshold). -/
theorem swipeEnd_commits_iff_final_clamped_offset_witness :
    gActive.isSwiping = true ∧
    (handleSwipeEnd 140 (applyMoves 140 56 ([] ++ [155]) gActive)).2 =
      decide (max 0 (min (155 - gActive.swipeStartX) (140 - 56)) > 140 * (7 / 10)) :=
  ⟨rfl, swipeEnd_commits_iff_final_clamped_offset 140 56 gActive [] 155 rfl⟩

/-- Claim C5 (amended: true of the OrderDetailsModal surface, whose
onClose dismissal is side-effect free; the NewOrderModal backdrop
dismissal, by contrast, is wired to handleCloseAndReject and issues
NEW → REJECTED — see the counterexample): closing the details surface
kills the interval schedule, issues no request, leaves the status
untouched, and further simulated ticks change nothing. -/
theorem dismissal_cancels_timer_without_reject (s : ModalSys) (n : Nat)
    (hm : s.mounted = true) (hl : s.timer.live = 1) (hr : s.timer.refLive = true) :
    (closeEvent s).timer.live = 0 ∧
    (closeEvent s).status = s.status ∧
    (closeEvent s).acceptReqs = s.acceptReqs ∧
    (closeEvent s).rejectReqs = s.rejectReqs ∧
    iterTicks n (closeEvent s) = closeEvent s := by
  have hc : closeEvent s =
      { status := s.status, mounted := false,
        timer := { timeLeft := s.timer.timeLeft, live := 0, refLive := false },
        gesture := s.gesture, acceptReqs := s.acceptReqs, rejectReqs := s.rejectReqs } := by
    simp [closeEvent, unmountCleanup, clearIntervalRef, hm, hr, hl]
  rw [hc]
  exact ⟨rfl, rfl, rfl, rfl, iterTicks_no_live _ rfl n⟩

/-- Claim C5 witness: a mounted NEW modal with a running timer, closed,
then 7 more simulated ticks. -/
theorem dismissal_cancels_timer_without_reject_witness :
    (mOpen.mounted = true ∧ mOpen.timer.live = 1 ∧ mOpen.timer.refLive = true) ∧
    ((closeEvent mOpen).timer.live = 0 ∧
    (closeEvent mOpen).status = mOpen.status ∧
    (closeEvent mOpen).acceptReqs = mOpen.acceptReqs ∧
    (closeEvent mOpen).rejectReqs = mOpen.rejectReqs ∧
    iterTicks 7 (closeEvent mOpen) = closeEvent mOpen) :=
  ⟨⟨rfl, rfl, rfl⟩, dismissal_cancels_timer_without_reject mOpen 7 rfl rfl rfl⟩

/-- Claim C5, counterexample: dismissing the NewOrderModal surface by
clicking its backdrop (onClick wired to handleCloseAndReject, lines
23-27 and 126 of src/components/NewOrderModal.tsx) does issue a
NEW → REJECTED request — the claim says a dismissal issues none. -/
theorem newOrderModal_backdrop_dismissal_rejects :
    (newOrderCloseAndReject mOpen).rejectReqs = mOpen.rejectReqs + 1 ∧
    (newOrderCloseAndReject mOpen).status = OrderStatus.REJECTED :=
  ⟨rfl, rfl⟩

/-- Claim C6: a pointer move during an inactive gesture is a no-op, and
during an active gesture the reported offset is clamped into
[0, trackWidth − handleWidth]. -/
theorem swipeMove_noop_or_clamped (W H x : ℚ) (g : Swipe) (hWH : H ≤ W) :
    (g.isSwiping = false → handleSwipeMove W H x g = g) ∧
    (g.isSwiping = true →
      0 ≤ (handleSwipeMove W H x g).swipeDelta ∧
      (handleSwipeMove W H x g).swipeDelta ≤ W - H) := by
  constructor
  · intro h
    simp [handleSwipeMove, h]
  · intro h
    simp only [handleSwipeMove, h, if_pos rfl]
    exact ⟨le_max_left 0 _, max_le (by linarith) (min_le_right _ _)⟩

/-- Claim C6 witness: track 140, handle 56, inactive gesture. -/
theorem swipeMove_noop_or_clamped_witness :
    ((56:ℚ) ≤ 140 ∧ initSwipe.isSwiping = false) ∧
    handleSwipeMove 140 56 20 initSwipe = initSwipe :=
  ⟨⟨by norm_num, rfl⟩,
   (swipeMove_noop_or_clamped 140 56 20 initSwipe (by norm_num)).1 rfl⟩

/-- Claim C7: re-running the timer effect on a running countdown
restarts remaining time to the full duration and first clears the
previous schedule, so exactly one schedule is live afterwards
(superseding, not stacking) and the restarted countdown produces
exactly one expiry, at the new duration — no extra expire events. -/
theorem reset_supersedes_and_restarts (D n : Nat) (s : TimerM)
    (hD : 1 ≤ D) (hl : s.live = 1) (hr : s.refLive = true) :
    startTimerEffect D s = initTimer D ∧
    (startTimerEffect D s).timeLeft = D ∧
    (startTimerEffect D s).live = 1 ∧
    (runTicks (startTimerEffect D s) n).2 = if n < D then 0 else 1 := by
  have he : startTimerEffect D s = initTimer D := by
    simp [startTimerEffect, clearIntervalRef, initTimer_eq, hl, hr]
  refine ⟨he, by rw [he, initTimer_eq], by rw [he, initTimer_eq], ?_⟩
  rw [he, runTicks_init D hD n]
  by_cases h : n < D <;> simp [h]

/-- Claim C7 witness: a countdown with 5 ticks left reset to duration 2,
then run for 10 ticks. -/
theorem reset_supersedes_and_restarts_witness :
    (1 ≤ 2 ∧ tRunningA.live = 1 ∧ tRunningA.refLive = true) ∧
    (startTimerEffect 2 tRunningA = initTimer 2 ∧
    (startTimerEffect 2 tRunningA).timeLeft = 2 ∧
    (startTimerEffect 2 tRunningA).live = 1 ∧
    (runTicks (startTimerEffect 2 tRunningA) 10).2 = if 10 < 2 then 0 else 1) :=
  ⟨⟨by decide, rfl, rfl⟩, reset_supersedes_and_restarts 2 10 tRunningA (by decide) rfl rfl⟩

/-- Claim C8: running the effect cleanup (clearInterval) on a running
countdown before expiry leaves no live schedule, and any number of
subsequent tick opportunities fires no callback at all: the state stays
frozen and the expiry count stays 0. -/
theorem cleanup_prevents_further_callbacks (s : TimerM) (n : Nat)
    (hl : s.live = 1) (hr : s.refLive = true) (_hpre : 1 ≤ s.timeLeft) :
    (clearIntervalRef s).live = 0 ∧
    runTicks (clearIntervalRef s) n = (clearIntervalRef s, 0) := by
  have h0 : (clearIntervalRef s).live = 0 := by
    simp [clearIntervalRef, hr, hl]
  exact ⟨h0, runTicks_no_live _ h0 n⟩

/-- Claim C8 witness: a countdown with 37 ticks left, cancelled, then 12
tick opportunities. -/
theorem cleanup_prevents_further_callbacks_witness :
    (tRunningB.live = 1 ∧ tRunningB.refLive = true ∧ 1 ≤ tRunningB.timeLeft) ∧
    ((clearIntervalRef tRunningB).live = 0 ∧
    runTicks (clearIntervalRef tRunningB) 12 = (clearIntervalRef tRunningB, 0)) :=
  ⟨⟨rfl, rfl, by decide⟩,
   cleanup_prevents_further_callbacks tRunningB 12 rfl rfl (by decide)⟩

/-- Claim C9: when the handle is at least 30% of the track wide, the
clamp bound trackWidth − handleWidth is at most 70% of the track, so no
sequence of gesture events starting from the mount state can ever
produce a commit verdict. -/
theorem narrow_track_never_commits (W H : ℚ) (es : List SwipeEvent)
    (hW : 0 ≤ W) (hH : (3 / 10) * W ≤ H) :
    (runSwipe W H es initSwipe).2 = 0 :=
  (runSwipe_no_commit_of_le W H hW hH es initSwipe
    (by show (0:ℚ) ≤ W * (7 / 10); nlinarith)).1

/-- Claim C9 witness: track 140, handle 56 (≥ 42 = 30% of 140), a
gesture dragged far past the track end and released. -/
theorem narrow_track_never_commits_witness :
    ((0:ℚ) ≤ 140 ∧ (3 / 10) * (140:ℚ) ≤ 56) ∧
    (runSwipe 140 56 [SwipeEvent.begin 0, SwipeEvent.move 200, SwipeEvent.release]
      initSwipe).2 = 0 :=
  ⟨⟨by norm_num, by norm_num⟩,
   narrow_track_never_commits 140 56
     [SwipeEvent.begin 0, SwipeEvent.move 200, SwipeEvent.release]
     (by norm_num) (by norm_num)⟩

/-- Claim C10: handleSwipeStart leaves swipeDeltaRef untouched, so a
begin immediately followed by a release evaluates the commit verdict
against the offset stored by the last move of a previous gesture (0
only if none ever moved), not against 0 for the current gesture. -/
theorem swipeStart_does_not_reset_offset (W x : ℚ) (g : Swipe) :
    (handleSwipeStart x g).swipeDelta = g.swipeDelta ∧
    (handleSwipeEnd W (handleSwipeStart x g)).2 = decide (g.swipeDelta > W * (7 / 10)) := by
  refine ⟨rfl, ?_⟩
  by_cases h : g.swipeDelta > W * (7 / 10) <;>
    simp [handleSwipeStart, handleSwipeEnd, h]

end Dukaan
